import Mathlib

/-!
Verification development for the Content X AI Studio backend
(`voice_backend.py`, `real_content_backend.py`, `publishing_backend.py`,
and the status endpoints of `simple_main.py`).

The Python modules are shallowly embedded: the in-memory dictionaries
become association lists, `datetime` values become an inductive `PyTime`
(a raw `datetime` object or an ISO string), the dictionaries returned to
callers become explicit key/value entry lists with Python's
later-key-wins literal semantics, and each `asyncio` task becomes a
small-step machine whose steps are the atomic blocks between `await`
suspension points.  Float-valued estimates (`len(text) * 0.1` seconds,
etc.) are scaled to integers (centiseconds / bytes) since no property
depends on their fractional values.
-/

namespace ContentX

/-- A value stored in one of the JSON-style dictionaries the backends
return: a string, a number, or Python `None`. -/
inductive PyVal where
  | str (s : String)
  | nat (n : Nat)
  | none_
  deriving DecidableEq, Repr

/-- Lookup in a Python dict literal built from an entry list: the dict
is built by inserting the entries in order, so a later entry with the
same key overwrites an earlier one. -/
def pyGet (entries : List (String × PyVal)) (k : String) : Option PyVal :=
  entries.foldl (fun acc e => if e.1 == k then some e.2 else acc) none

/-- Encode an optional string the way `dict.get` surfaces a missing or
`None` field. -/
def optStr : Option String → PyVal
  | some s => .str s
  | none => .none_

/-- Encode an optional number. -/
def optNat : Option Nat → PyVal
  | some n => .nat n
  | none => .none_

/-- A Python `datetime` value as the backends store it: either a raw
`datetime` object (`dt`) or an ISO-formatted string (`iso`), both
carrying an abstract integer instant. -/
inductive PyTime where
  | dt (t : Nat)
  | iso (t : Nat)
  deriving DecidableEq, Repr

/-- The `hasattr(x, "isoformat")`-guarded conversion the status queries
apply: a raw `datetime` object is converted with `isoformat()`, a string
is left alone. -/
def PyTime.toIso : PyTime → PyTime
  | .dt t => .iso t
  | .iso t => .iso t

/-! ## Voice backend (`src/voice_backend.py`) -/

/-- One entry of `VoiceBackend.self.providers`.  The API keys fall back
to `demo_key` when the environment variables are unset; the key value is
irrelevant to every claim. -/
structure ProviderCfg where
  api_key : String
  base_url : Option String := none
  region : Option String := none
  enabled : Bool
  deriving DecidableEq, Repr

/-- The provider registry built in `VoiceBackend.__init__`. -/
def voiceProviders : List (String × ProviderCfg) :=
  [("elevenlabs",
    { api_key := "demo_key", base_url := some "https://api.elevenlabs.io/v1", enabled := true }),
   ("azure",
    { api_key := "demo_key", region := some "eastus", enabled := true }),
   ("google",
    { api_key := "demo_key", enabled := true }),
   ("speechelo",
    { api_key := "demo_key", base_url := some "https://api.speechelo.io/v1", enabled := true })]

/-- The dictionary a `_generate_<provider>_voice` helper returns.
Durations are scaled to centiseconds (`len(text) * 0.1` seconds becomes
`text.length * 10`).  A missing `duration`/`file_size` key and the
`result.get(..., 0)` default coincide on the value `0`. -/
structure ProviderResult where
  status : String
  audio_url : Option String := none
  duration : Nat := 0
  file_size : Nat := 0
  provider : Option String := none
  error : Option String := none
  deriving DecidableEq, Repr

/-- Embedding of `VoiceBackend._generate_elevenlabs_voice` (the
simulated success path; `now` stands for `int(time.time())`). -/
def generate_elevenlabs_voice (text voice_id : String) (now : Nat) : ProviderResult :=
  { status := "success"
    audio_url := some ("https://contentx-studio.s3.amazonaws.com/voices/elevenlabs_"
      ++ voice_id ++ "_" ++ toString now ++ ".mp3")
    duration := text.length * 10
    file_size := text.length * 1000
    provider := some "elevenlabs" }

/-- Embedding of `VoiceBackend._generate_azure_voice`. -/
def generate_azure_voice (text voice_id : String) (now : Nat) : ProviderResult :=
  { status := "success"
    audio_url := some ("https://contentx-studio.s3.amazonaws.com/voices/azure_"
      ++ voice_id ++ "_" ++ toString now ++ ".wav")
    duration := text.length * 12
    file_size := text.length * 1200
    provider := some "azure" }

/-- Embedding of `VoiceBackend._generate_google_voice`. -/
def generate_google_voice (text voice_id : String) (now : Nat) : ProviderResult :=
  { status := "success"
    audio_url := some ("https://contentx-studio.s3.amazonaws.com/voices/google_"
      ++ voice_id ++ "_" ++ toString now ++ ".mp3")
    duration := text.length * 11
    file_size := text.length * 1100
    provider := some "google" }

/-- Embedding of `VoiceBackend._generate_speechelo_voice`. -/
def generate_speechelo_voice (text voice_id : String) (now : Nat) : ProviderResult :=
  { status := "success"
    audio_url := some ("https://contentx-studio.s3.amazonaws.com/voices/speechelo_"
      ++ voice_id ++ "_" ++ toString now ++ ".mp3")
    duration := text.length * 13
    file_size := text.length * 1300
    provider := some "speechelo" }

/-- One record of `self.voice_jobs`. -/
structure VoiceJob where
  job_id : String
  text : String
  voice_id : String
  provider : String
  user_id : Option String
  quality : String
  status : String
  created_at : Nat
  progress : Nat
  audio_url : Option String := none
  duration : Nat := 0
  file_size : Nat := 0
  completed_at : Option Nat := none
  failed_at : Option Nat := none
  error : Option String := none
  deriving DecidableEq, Repr

/-- One entry of a `self.user_voices` list. -/
structure UserVoice where
  voice_id : String
  provider : String
  created_at : Nat
  audio_url : Option String
  deriving DecidableEq, Repr

/-- The mutable state of a `VoiceBackend` instance (the provider table
and voice-model catalogue are immutable configuration). -/
structure VoiceStore where
  voice_jobs : List (String × VoiceJob) := []
  user_voices : List (String × List UserVoice) := []
  deriving DecidableEq, Repr

/-- The job record `generate_voice` inserts into `self.voice_jobs`
before dispatching to the provider (status `processing`, progress 0). -/
def createdVoiceJob (text voice_id provider : String) (user_id : Option String)
    (quality : String) (job_id : String) (now : Nat) : VoiceJob :=
  { job_id := job_id, text := text, voice_id := voice_id, provider := provider,
    user_id := user_id, quality := quality, status := "processing",
    created_at := now, progress := 0 }

/-- The in-place update `generate_voice` applies to the stored job after
the provider call returns (`completed` on a `success` result, `failed`
otherwise). -/
def settledVoiceJob (job : VoiceJob) (result : ProviderResult) (now : Nat) : VoiceJob :=
  if result.status == "success" then
    { job with
      status := "completed",
      progress := 100,
      audio_url := result.audio_url,
      duration := result.duration,
      file_size := result.file_size,
      completed_at := some now }
  else
    { job with
      status := "failed",
      error := some (result.error.getD "Unknown error"),
      failed_at := some now }

/-- In-place update of a Python dict entry: the new binding shadows the
old one for lookups (we keep the other keys). -/
def updateAssoc (m : List (String × List UserVoice)) (k : String)
    (v : List UserVoice) : List (String × List UserVoice) :=
  (k, v) :: m.filter (fun e => e.1 != k)

/-- Embedding of `VoiceBackend.generate_voice`.  `job_id` stands for the
fresh `uuid4`, `now` for the current time, and `result` for the outcome
of the awaited provider call (the four simulated providers above always
return their literal `success` records, but the method handles an
arbitrary result dictionary).  The whole call is one atomic transaction
on the store: the intermediate `processing` record exists only while the
provider call is in flight.  Returns the new store and the returned dict
entry list, whose duplicate `"status"` key is kept verbatim. -/
def generate_voice (st : VoiceStore) (text voice_id provider : String)
    (user_id : Option String) (quality : String) (job_id : String) (now : Nat)
    (result : ProviderResult) : VoiceStore × List (String × PyVal) :=
  match voiceProviders.lookup provider with
  | none =>
      (st, [("status", .str "error"),
            ("error", .str ("Unsupported provider: " ++ provider))])
  | some cfg =>
      if !cfg.enabled then
        (st, [("status", .str "error"),
              ("error", .str ("Provider " ++ provider ++ " is not enabled"))])
      else
        let job := createdVoiceJob text voice_id provider user_id quality job_id now
        let job' := settledVoiceJob job result now
        let user_voices' :=
          if result.status == "success" then
            match user_id with
            | some uid =>
                updateAssoc st.user_voices uid
                  (((st.user_voices.lookup uid).getD []) ++
                    [{ voice_id := voice_id, provider := provider,
                       created_at := job.created_at, audio_url := result.audio_url }])
            | none => st.user_voices
          else st.user_voices
        ({ voice_jobs := (job_id, job') :: st.voice_jobs, user_voices := user_voices' },
         [("status", .str "success"),
          ("job_id", .str job_id),
          ("status", .str job'.status),
          ("audio_url", optStr job'.audio_url),
          ("duration", .nat job'.duration),
          ("provider", .str provider),
          ("voice_id", .str voice_id)])

/-- Embedding of `VoiceBackend.get_voice_status`.  The method only reads
`self.voice_jobs`; the untouched store is returned alongside the view so
the frame property is statable.  The returned dict literal again carries
the duplicate `"status"` key verbatim. -/
def get_voice_status (st : VoiceStore) (job_id : String) :
    VoiceStore × List (String × PyVal) :=
  match st.voice_jobs.lookup job_id with
  | none =>
      (st, [("status", .str "error"), ("error", .str "Job not found")])
  | some job =>
      (st, [("status", .str "success"),
            ("job_id", .str job_id),
            ("status", .str job.status),
            ("progress", .nat job.progress),
            ("audio_url", optStr job.audio_url),
            ("duration", .nat job.duration),
            ("file_size", .nat job.file_size),
            ("provider", .str job.provider),
            ("voice_id", .str job.voice_id),
            ("created_at", .nat job.created_at),
            ("completed_at", optNat job.completed_at),
            ("error", optStr job.error)])

/-! ## Content-generation backend (`src/real_content_backend.py`)

The background task `_generate_real_content_async` is embedded as a
small-step machine.  Its `await` points split it into four atomic
blocks, one per stage (script processing, optional voice generation,
optional video rendering, finalization); each block suspends on
`asyncio.sleep` and then mutates the shared job record.  The helper
coroutines it awaits (`_create_real_voice`,
`_create_real_instagram_reel`) contain no `await`, so each stage's job
mutations are atomic with respect to other tasks on the event loop. -/

/-- One record of `RealContentBackend.self.generation_jobs`. -/
structure GenJob where
  status : String
  progress : Nat
  created_at : PyTime
  user_id : String
  content_type : String
  script_length : Nat
  current_step : Option String := none
  voice_file : Option String := none
  voice_duration : Option String := none
  video_file : Option String := none
  video_duration : Option String := none
  video_resolution : Option String := none
  completed_at : Option PyTime := none
  error : Option String := none
  deriving DecidableEq, Repr

/-- The record `generate_content` inserts before spawning the runner
task (`created_at` is a raw `datetime` object). -/
def initialGenJob (user_id content_type : String) (script_length now : Nat) : GenJob :=
  { status := "processing", progress := 0, created_at := .dt now,
    user_id := user_id, content_type := content_type, script_length := script_length }

/-- The four stages of `_generate_real_content_async`. -/
inductive Stage where
  | script
  | voice
  | video
  | finalize
  deriving DecidableEq, Repr

/-- The hardcoded progress value the runner writes after each stage. -/
def stageProgress : Stage → Nat
  | .script => 20
  | .voice => 60
  | .video => 85
  | .finalize => 100

/-- The hardcoded `current_step` description written with each stage's
progress update. -/
def stageDescription : Stage → String
  | .script => "Processing script and analyzing content structure"
  | .voice => "Generating voice using AI model"
  | .video => "Rendering video with avatar animation"
  | .finalize => "Content generation completed successfully"

/-- The stage sequence the runner executes for a given configuration:
the voice stage runs only when a voice model is given and the content
type is `video` or `audio`; the video stage only when an avatar model is
given and the content type is `video`.  Script processing and
finalization always run. -/
def pipeline (voice_model_id avatar_model_id : Option String)
    (content_type : String) : List Stage :=
  [.script]
  ++ (if voice_model_id.isSome && (content_type == "video" || content_type == "audio")
      then [.voice] else [])
  ++ (if avatar_model_id.isSome && content_type == "video"
      then [.video] else [])
  ++ [.finalize]

/-- The job mutation one stage's atomic block performs on success.
`now` stands for `datetime.now` at finalization and `voice_file` /
`video_file` for the filenames the creation helpers return. -/
def applyStage (job : GenJob) (s : Stage) (now : Nat)
    (voice_file video_file : String) : GenJob :=
  match s with
  | .script =>
      { job with
        progress := 20,
        current_step := some (stageDescription .script) }
  | .voice =>
      { job with
        progress := 60,
        current_step := some (stageDescription .voice),
        voice_file := some voice_file,
        voice_duration := some "0.2 minutes" }
  | .video =>
      { job with
        progress := 85,
        current_step := some (stageDescription .video),
        video_file := some video_file,
        video_duration := some "0.2 minutes",
        video_resolution := some "1080x1920" }
  | .finalize =>
      { job with
        progress := 100,
        status := "completed",
        completed_at := some (.dt now),
        current_step := some (stageDescription .finalize) }

/-- The `except` handler of `_generate_real_content_async`: the job is
marked `failed` with the error message; progress and already-written
stage artifacts are left as they are. -/
def failGenJob (job : GenJob) (msg : String) : GenJob :=
  { job with
    status := "failed",
    error := some msg,
    current_step := some ("Generation failed: " ++ msg) }

/-- A runner task for one generation job: the stages still to execute
and the shared job record. -/
structure GenRunner where
  remaining : List Stage
  job : GenJob
  deriving DecidableEq, Repr

/-- The outcome of one stage's awaited work: either it finishes (with
the current time and the filenames produced), or an exception reaches
the surrounding `except` block. -/
inductive StageOutcome where
  | ok (now : Nat) (voice_file video_file : String)
  | exn (msg : String)
  deriving DecidableEq, Repr

/-- One atomic step of the runner: execute the next pending stage, or
fall into the `except` handler, which also ends the task.  A finished
task does nothing. -/
def genStep (s : GenRunner) (o : StageOutcome) : GenRunner :=
  match s.remaining, o with
  | [], _ => s
  | st :: rest, .ok now vf xf =>
      { remaining := rest, job := applyStage s.job st now vf xf }
  | _ :: _, .exn msg =>
      { remaining := [], job := failGenJob s.job msg }

/-- The sequence of job snapshots an observer polling between runner
steps sees (one snapshot after each step). -/
def genTrace (s : GenRunner) : List StageOutcome → List GenJob
  | [] => []
  | o :: os =>
      let s' := genStep s o
      s'.job :: genTrace s' os

/-- Boolean check that a list of job snapshots has non-decreasing
progress, starting from the progress value `p`. -/
def progressesFrom (p : Nat) : List GenJob → Bool
  | [] => true
  | j :: rest => decide (p ≤ j.progress) && progressesFrom j.progress rest

/-- Boolean invariant tying a runner's current progress to its pending
stages: the progress written by each pending stage is at least the
current value, and the pending stage values are ascending. -/
def progressChain (p : Nat) : List Stage → Bool
  | [] => true
  | st :: rest => decide (p ≤ stageProgress st) && progressChain (stageProgress st) rest

/-! ## Publishing backend (`src/publishing_backend.py`)

The publishing runner (`_execute_scheduled_post` followed by
`_publish_to_platforms`, or `_publish_to_platforms` alone for
`publish_immediately`) is embedded as an event-step machine.  Its
`await` points are: the initial sleep until the scheduled time, the
per-platform publish call plus the inter-platform sleep, and then one
final atomic block that writes `completed`, the results and
`completed_at` into the job.  `cancel_scheduled_post` is synchronous and
may interleave at any suspension point. -/

/-- The dictionary `_publish_to_platform` produces for one platform
(either its simulated success record or the `failed` record the
per-platform `except` block builds). -/
structure PlatformResult where
  status : String
  platform : String
  platform_post_id : Option String := none
  published_at : Option Nat := none
  url : Option String := none
  likes : Option Nat := none
  shares : Option Nat := none
  comments : Option Nat := none
  error : Option String := none
  deriving DecidableEq, Repr

/-- The simulated success record of `_publish_to_platform` (`now` for
`int(time.time())` and the publish instant; the three metric counts are
random numbers, passed in). -/
def publish_to_platform_success (platform post_id : String) (now : Nat)
    (likes shares comments : Nat) : PlatformResult :=
  { status := "success", platform := platform,
    platform_post_id := some (platform ++ "_" ++ post_id ++ "_" ++ toString now),
    published_at := some now,
    url := some ("https://" ++ platform ++ ".com/posts/"
      ++ platform ++ "_" ++ post_id ++ "_" ++ toString now),
    likes := some likes, shares := some shares, comments := some comments }

/-- A record of `self.scheduled_posts` or `self.publishing_jobs`.  The
two dictionaries use the same shape up to initial values: a scheduled
post has `schedule_time` and no `results` key, an immediate publishing
job starts with an empty `results` dict.  The static
`"optimizations": {}` field of scheduled posts is omitted (nothing ever
reads or writes it). -/
structure PubJob where
  post_id : String
  user_id : String
  content : String
  platforms : List String
  schedule_time : Option Nat := none
  status : String
  created_at : PyTime
  results : Option (List (String × PlatformResult)) := none
  error : Option String := none
  completed_at : Option PyTime := none
  deriving DecidableEq, Repr

/-- The record `schedule_post` stores (status `scheduled`, `created_at`
an ISO string). -/
def scheduledPost (post_id user_id content : String) (platforms : List String)
    (schedule_time now : Nat) : PubJob :=
  { post_id := post_id, user_id := user_id, content := content,
    platforms := platforms, schedule_time := some schedule_time,
    status := "scheduled", created_at := .iso now }

/-- The record `publish_immediately` stores (status `publishing`,
`created_at` a raw `datetime` object, `results` an empty dict). -/
def publishingJob (post_id user_id content : String) (platforms : List String)
    (now : Nat) : PubJob :=
  { post_id := post_id, user_id := user_id, content := content,
    platforms := platforms, status := "publishing", created_at := .dt now,
    results := some [] }

/-- The unconditional status overwrite of
`PublishingBackend.cancel_scheduled_post` on a stored post: it assigns
`"cancelled"` whatever the current status is, and touches no other
field. -/
def cancel_scheduled_post (j : PubJob) : PubJob :=
  { j with status := "cancelled" }

/-- Program counter of the publishing runner task: sleeping before the
publish loop, iterating the platform loop with the results accumulated
so far (the local `results` variable), or finished. -/
inductive PubRunner where
  | waiting
  | publishing (remaining : List String) (acc : List (String × PlatformResult))
  | finished
  deriving DecidableEq, Repr

/-- One job together with its runner task.  `isScheduled` records which
dictionary holds the job: `cancel_scheduled_post` only ever touches
`self.scheduled_posts`. -/
structure PubState where
  job : PubJob
  runner : PubRunner
  isScheduled : Bool
  deriving DecidableEq, Repr

/-- The events that can interleave on one publishing job: a caller's
cancel, the runner waking from the initial sleep and reading the
platform list, one platform publish finishing with its result record,
the final commit block, or an exception reaching the runner's outer
`except` handler before it finished. -/
inductive PubEvent where
  | cancel
  | wake
  | platformDone (r : PlatformResult)
  | commit (now : Nat)
  | crash (msg : String)
  deriving DecidableEq, Repr

/-- One atomic step of the publishing subsystem.  `cancel` overwrites
the status with `cancelled` (only for scheduled posts; for an unknown or
immediate post id it returns an error and changes nothing).  The runner
events follow `_execute_scheduled_post` / `_publish_to_platforms`: the
loop never looks at the job's status, and the commit block writes
`completed`, `results` and `completed_at` unconditionally.  The outer
`except` handler writes `failed` and the message. -/
def pubStep (s : PubState) (e : PubEvent) : PubState :=
  match e with
  | .cancel =>
      if s.isScheduled then { s with job := cancel_scheduled_post s.job } else s
  | .wake =>
      match s.runner with
      | .waiting => { s with runner := .publishing s.job.platforms [] }
      | _ => s
  | .platformDone r =>
      match s.runner with
      | .publishing (p :: rest) acc =>
          { s with runner := .publishing rest (acc ++ [(p, r)]) }
      | _ => s
  | .commit now =>
      match s.runner with
      | .publishing [] acc =>
          { s with
            runner := .finished,
            job := { s.job with
                     status := "completed",
                     results := some acc,
                     completed_at := some (.iso now) } }
      | _ => s
  | .crash msg =>
      match s.runner with
      | .finished => s
      | _ =>
          { s with
            runner := .finished,
            job := { s.job with status := "failed", error := some msg } }

/-- Run a sequence of interleaved events. -/
def pubRun (s : PubState) : List PubEvent → PubState
  | [] => s
  | e :: es => pubRun (pubStep s e) es

/-- The initial state of a freshly scheduled post with its spawned
runner task. -/
def freshScheduled (post_id user_id content : String) (platforms : List String)
    (schedule_time now : Nat) : PubState :=
  { job := scheduledPost post_id user_id content platforms schedule_time now,
    runner := .waiting, isScheduled := true }

/-- The initial state of a fresh immediate publishing job with its
spawned runner task. -/
def freshImmediate (post_id user_id content : String) (platforms : List String)
    (now : Nat) : PubState :=
  { job := publishingJob post_id user_id content platforms now,
    runner := .waiting, isScheduled := false }

/-! ## Status queries and HTTP status endpoints
(`real_content_backend.get_generation_status`,
`publishing_backend.get_publishing_status`, and the corresponding
handlers in `src/simple_main.py`).

Both backend methods copy the stored record (`job.copy()`) and convert
`datetime` timestamps to ISO strings on the copy only; the store itself
is never written.  Each query therefore returns the untouched store
alongside the view it builds, making the read-only frame property a
statement about the embedded function. -/

/-- Embedding of `RealContentBackend.get_generation_status`: `None` for
an unknown job id, otherwise a copy of the record with `created_at` and
`completed_at` converted to ISO strings when they are `datetime`
objects. -/
def get_generation_status (generation_jobs : List (String × GenJob))
    (job_id : String) : List (String × GenJob) × Option GenJob :=
  (generation_jobs,
   (generation_jobs.lookup job_id).map (fun job =>
     { job with
       created_at := job.created_at.toIso,
       completed_at := job.completed_at.map PyTime.toIso }))

/-- Embedding of `PublishingBackend.get_publishing_status`: looks in
`publishing_jobs` first, then `scheduled_posts`; `None` when neither
holds the id, otherwise the timestamp-converted copy. -/
def get_publishing_status (publishing_jobs scheduled_posts : List (String × PubJob))
    (post_id : String) :
    (List (String × PubJob) × List (String × PubJob)) × Option PubJob :=
  ((publishing_jobs, scheduled_posts),
   ((publishing_jobs.lookup post_id).orElse
      (fun _ => scheduled_posts.lookup post_id)).map (fun job =>
     { job with
       created_at := job.created_at.toIso,
       completed_at := job.completed_at.map PyTime.toIso }))

/-- Body of a JSON HTTP response from the status endpoints: the
serialized generation or publishing record (where an absent record
serializes as JSON `null`), or an error-message object. -/
inductive RespBody where
  | genStatus (v : Option GenJob)
  | pubStatus (v : Option PubJob)
  | errorMsg (msg : String)
  deriving DecidableEq, Repr

/-- An HTTP response as built by the handlers (`JSONResponse` defaults
to status code 200). -/
structure HttpResponse where
  status_code : Nat
  body : RespBody
  deriving DecidableEq, Repr

/-- Whether a response signals an error to the caller: a 4xx/5xx status
code or an error-message body. -/
def isErrorResponse (r : HttpResponse) : Bool :=
  decide (400 ≤ r.status_code) ||
    match r.body with
    | .errorMsg _ => true
    | _ => false

/-- Embedding of the `GET /api/content/generation/status/{job_id}`
handler of `simple_main.py`: a 503 when the content backend failed to
import, otherwise a 200 whose body serializes whatever
`get_generation_status` returned, including `None`.  (The 500 branch of
the handler is unreachable here: the query itself cannot raise.) -/
def generation_status_endpoint (available : Bool)
    (generation_jobs : List (String × GenJob)) (job_id : String) : HttpResponse :=
  if !available then
    { status_code := 503, body := .errorMsg "Content backend not available" }
  else
    { status_code := 200,
      body := .genStatus (get_generation_status generation_jobs job_id).2 }

/-- Embedding of the `GET /api/publishing/status/{post_id}` handler of
`simple_main.py`. -/
def publishing_status_endpoint (available : Bool)
    (publishing_jobs scheduled_posts : List (String × PubJob))
    (post_id : String) : HttpResponse :=
  if !available then
    { status_code := 503, body := .errorMsg "Publishing backend not available" }
  else
    { status_code := 200,
      body := .pubStatus
        (get_publishing_status publishing_jobs scheduled_posts post_id).2 }

/-- Helper written to the spec's words, for comparison with the code's
hardcoded progress table: the spec prescribes
`progress = round(100 * (i+1) / total_stages)` after stage `i` of
`total_stages`; rendered over naturals with round-half-up (the division
is exact at every point where the comparison below is made). -/
def specProgressFormula (i total : Nat) : Nat :=
  (100 * (i + 1) * 2 + total) / (total * 2)

/-! ## Helper lemmas -/

theorem lookup_cons_self {α : Type} (k : String) (v : α) (l : List (String × α)) :
    List.lookup k ((k, v) :: l) = some v := by
  simp [List.lookup]

/-- The status the settled voice job carries is `completed` or `failed`,
depending only on whether the provider result's status is `success`. -/
theorem settledVoiceJob_status (job : VoiceJob) (result : ProviderResult) (now : Nat) :
    (settledVoiceJob job result now).status = "completed" ∨
      (settledVoiceJob job result now).status = "failed" := by
  unfold settledVoiceJob
  split
  · exact Or.inl rfl
  · exact Or.inr rfl

/-- The view `get_voice_status` builds reports the stored job's status
under the key `"status"`: the later of the two `"status"` entries in the
dict literal wins. -/
theorem get_voice_status_reports (st : VoiceStore) (jid : String) (job : VoiceJob)
    (h : st.voice_jobs.lookup jid = some job) :
    pyGet (get_voice_status st jid).2 "status" = some (.str job.status) := by
  unfold get_voice_status
  rw [h]
  rfl

/-! ## Claims C4, C8, C9, C10 -/

/-- C4: submitting a voice-generation job with an unregistered provider
name fails synchronously with the `Unsupported provider` error
dictionary, the returned dictionary carries no `job_id` key, and the
store (both the job map and the user-voice map) is returned unchanged. -/
theorem C4_unknown_provider_rejected (st : VoiceStore)
    (text voice_id provider : String) (user_id : Option String)
    (quality job_id : String) (now : Nat) (result : ProviderResult)
    (h : voiceProviders.lookup provider = none) :
    generate_voice st text voice_id provider user_id quality job_id now result =
      (st, [("status", .str "error"),
            ("error", .str ("Unsupported provider: " ++ provider))]) ∧
    pyGet (generate_voice st text voice_id provider user_id quality job_id
        now result).2 "job_id" = none := by
  unfold generate_voice
  rw [h]
  exact ⟨rfl, rfl⟩

/-- Witness for C4 at the spec's concrete input
`provider = "unknown_provider"`. -/
theorem C4_unknown_provider_rejected_witness :
    generate_voice {} "hello world" "rachel" "unknown_provider" none "high" "j1" 0
        { status := "success" } =
      ({}, [("status", .str "error"),
            ("error", .str ("Unsupported provider: " ++ "unknown_provider"))]) ∧
    pyGet (generate_voice {} "hello world" "rachel" "unknown_provider" none "high"
        "j1" 0 { status := "success" }).2 "job_id" = none :=
  C4_unknown_provider_rejected {} "hello world" "rachel" "unknown_provider" none
    "high" "j1" 0 { status := "success" } (by decide)

/-- C8: the three status queries are read-only — each returns the store
it was given unchanged (the Python methods build their view from a copy
of the record, converting timestamps only on that copy). -/
theorem C8_status_queries_read_only (st : VoiceStore)
    (gjobs : List (String × GenJob)) (pjobs sposts : List (String × PubJob))
    (vid gid pid : String) :
    (get_voice_status st vid).1 = st ∧
    (get_generation_status gjobs gid).1 = gjobs ∧
    (get_publishing_status pjobs sposts pid).1 = (pjobs, sposts) := by
  refine ⟨?_, rfl, rfl⟩
  unfold get_voice_status
  cases st.voice_jobs.lookup vid <;> rfl

/-- C9: for a registered, enabled provider, `generate_voice` settles the
job before returning — the stored record is already `completed` or
`failed` (never `processing`) by the time the call returns, and a status
poll after submission reports that terminal status. -/
theorem C9_generate_voice_synchronous (st : VoiceStore)
    (text voice_id provider : String) (user_id : Option String)
    (quality job_id : String) (now : Nat) (result : ProviderResult)
    (cfg : ProviderCfg) (hreg : voiceProviders.lookup provider = some cfg)
    (hen : cfg.enabled = true) :
    ∃ job',
      ((generate_voice st text voice_id provider user_id quality job_id now
          result).1).voice_jobs.lookup job_id = some job' ∧
      (job'.status = "completed" ∨ job'.status = "failed") ∧
      job'.status ≠ "processing" ∧
      pyGet (get_voice_status (generate_voice st text voice_id provider user_id
          quality job_id now result).1 job_id).2 "status" = some (.str job'.status) := by
  have hstore :
      (generate_voice st text voice_id provider user_id quality job_id now
          result).1.voice_jobs =
        (job_id, settledVoiceJob
          (createdVoiceJob text voice_id provider user_id quality job_id now)
          result now) :: st.voice_jobs := by
    unfold generate_voice
    rw [hreg]
    simp [hen]
  refine ⟨settledVoiceJob
      (createdVoiceJob text voice_id provider user_id quality job_id now)
      result now, ?_, settledVoiceJob_status _ _ _, ?_, ?_⟩
  · rw [hstore]
    exact lookup_cons_self _ _ _
  · rcases settledVoiceJob_status
      (createdVoiceJob text voice_id provider user_id quality job_id now)
      result now with h | h <;> rw [h] <;> decide
  · exact get_voice_status_reports _ _ _ (by rw [hstore]; exact lookup_cons_self _ _ _)

/-- Witness for C9 at a concrete submission through the simulated
ElevenLabs provider. -/
theorem C9_generate_voice_synchronous_witness :
    ∃ job',
      ((generate_voice {} "hello" "rachel" "elevenlabs" none "high" "j1" 7
          (generate_elevenlabs_voice "hello" "rachel" 7)).1).voice_jobs.lookup "j1" =
        some job' ∧
      (job'.status = "completed" ∨ job'.status = "failed") ∧
      job'.status ≠ "processing" ∧
      pyGet (get_voice_status (generate_voice {} "hello" "rachel" "elevenlabs" none
          "high" "j1" 7 (generate_elevenlabs_voice "hello" "rachel" 7)).1 "j1").2
        "status" = some (.str job'.status) :=
  C9_generate_voice_synchronous {} "hello" "rachel" "elevenlabs" none "high" "j1" 7
    (generate_elevenlabs_voice "hello" "rachel" 7)
    { api_key := "demo_key", base_url := some "https://api.elevenlabs.io/v1",
      enabled := true }
    (by decide) rfl

/-- C10: the dictionary `generate_voice` returns on the non-raising path
spells the `"status"` key twice, and Python's later-key-wins dict
literal semantics make the returned `"status"` equal the job's terminal
status (`completed` or `failed`), never the literal `"success"`. -/
theorem C10_duplicate_status_key (st : VoiceStore)
    (text voice_id provider : String) (user_id : Option String)
    (quality job_id : String) (now : Nat) (result : ProviderResult)
    (cfg : ProviderCfg) (hreg : voiceProviders.lookup provider = some cfg)
    (hen : cfg.enabled = true) :
    pyGet (generate_voice st text voice_id provider user_id quality job_id now
        result).2 "status" =
      some (.str (settledVoiceJob
        (createdVoiceJob text voice_id provider user_id quality job_id now)
        result now).status) ∧
    pyGet (generate_voice st text voice_id provider user_id quality job_id now
        result).2 "status" ≠ some (.str "success") := by
  have hresp :
      pyGet (generate_voice st text voice_id provider user_id quality job_id now
          result).2 "status" =
        some (.str (settledVoiceJob
          (createdVoiceJob text voice_id provider user_id quality job_id now)
          result now).status) := by
    unfold generate_voice
    rw [hreg]
    simp [hen]
    rfl
  refine ⟨hresp, ?_⟩
  rw [hresp]
  rcases settledVoiceJob_status
      (createdVoiceJob text voice_id provider user_id quality job_id now)
      result now with h | h <;> rw [h] <;> decide

/-- Witness for C10 at a concrete submission through the simulated
Azure provider. -/
theorem C10_duplicate_status_key_witness :
    pyGet (generate_voice {} "hi" "en-US-AriaNeural" "azure" none "high" "j2" 9
        (generate_azure_voice "hi" "en-US-AriaNeural" 9)).2 "status" =
      some (.str (settledVoiceJob
        (createdVoiceJob "hi" "en-US-AriaNeural" "azure" none "high" "j2" 9)
        (generate_azure_voice "hi" "en-US-AriaNeural" 9) 9).status) ∧
    pyGet (generate_voice {} "hi" "en-US-AriaNeural" "azure" none "high" "j2" 9
        (generate_azure_voice "hi" "en-US-AriaNeural" 9)).2 "status" ≠
      some (.str "success") :=
  C10_duplicate_status_key {} "hi" "en-US-AriaNeural" "azure" none "high" "j2" 9
    (generate_azure_voice "hi" "en-US-AriaNeural" 9)
    { api_key := "demo_key", region := some "eastus", enabled := true }
    (by decide) rfl

/-! ## Claims C5 and C7: the content runner's progress updates -/

theorem applyStage_progress (job : GenJob) (st : Stage) (now : Nat) (vf xf : String) :
    (applyStage job st now vf xf).progress = stageProgress st := by
  cases st <;> rfl

theorem applyStage_current_step (job : GenJob) (st : Stage) (now : Nat) (vf xf : String) :
    (applyStage job st now vf xf).current_step = some (stageDescription st) := by
  cases st <;> rfl

/-- Unfolding lemma for the `progressChain` invariant on a cons cell. -/
theorem progressChain_cons (p : Nat) (st : Stage) (rest : List Stage)
    (h : progressChain p (st :: rest) = true) :
    p ≤ stageProgress st ∧ progressChain (stageProgress st) rest = true := by
  have h' := h
  unfold progressChain at h'
  simp only [Bool.and_eq_true, decide_eq_true_eq] at h'
  exact h'

/-- One runner step never lowers progress and preserves the
`progressChain` invariant. -/
theorem genStep_progress_mono (s : GenRunner) (o : StageOutcome)
    (h : progressChain s.job.progress s.remaining = true) :
    s.job.progress ≤ (genStep s o).job.progress ∧
      progressChain (genStep s o).job.progress (genStep s o).remaining = true := by
  cases hrem : s.remaining with
  | nil =>
      cases o <;> simp [genStep, hrem, progressChain]
  | cons st rest =>
      rw [hrem] at h
      obtain ⟨h1, h2⟩ := progressChain_cons _ _ _ h
      cases o with
      | ok now vf xf =>
          constructor
          · simpa [genStep, hrem, applyStage_progress] using h1
          · simpa [genStep, hrem, applyStage_progress] using h2
      | exn msg =>
          constructor
          · simp [genStep, hrem, failGenJob]
          · simp [genStep, hrem, progressChain]

/-- Every execution of the runner preserves the `progressChain`
invariant and produces a non-decreasing snapshot sequence. -/
theorem genTrace_progress_mono (os : List StageOutcome) :
    ∀ s : GenRunner, progressChain s.job.progress s.remaining = true →
      progressesFrom s.job.progress (genTrace s os) = true := by
  induction os with
  | nil => intro s _; rfl
  | cons o os ih =>
      intro s h
      obtain ⟨h1, h2⟩ := genStep_progress_mono s o h
      show progressesFrom s.job.progress
        ((genStep s o).job :: genTrace (genStep s o) os) = true
      simp only [progressesFrom, Bool.and_eq_true, decide_eq_true_eq]
      exact ⟨h1, ih (genStep s o) h2⟩

/-- The stage pipeline of any configuration carries the ascending
invariant from progress 0. -/
theorem progressChain_pipeline (v a : Option String) (ct : String) :
    progressChain 0 (pipeline v a ct) = true := by
  unfold pipeline
  cases h1 : (v.isSome && (ct == "video" || ct == "audio")) <;>
    cases h2 : (a.isSome && ct == "video") <;>
      simp [h1, h2] <;> decide

/-- C7: progress is non-decreasing over a job's execution.  For every
content-generation configuration and every interleaving of stage
outcomes (including failures), the sequence of job snapshots visible to
a poller between runner steps has non-decreasing progress; and a voice
job's progress never decreases when `generate_voice` settles it (it is 0
while processing and 100 on completion). -/
theorem C7_progress_monotone (v a : Option String) (ct : String)
    (user_id content_type : String) (script_length now0 : Nat)
    (os : List StageOutcome) (text voice_id provider : String)
    (uid : Option String) (quality job_id : String) (now : Nat)
    (result : ProviderResult) :
    progressesFrom (initialGenJob user_id content_type script_length now0).progress
      (genTrace { remaining := pipeline v a ct,
                  job := initialGenJob user_id content_type script_length now0 } os) =
      true ∧
    (createdVoiceJob text voice_id provider uid quality job_id now).progress ≤
      (settledVoiceJob (createdVoiceJob text voice_id provider uid quality job_id now)
        result now).progress := by
  constructor
  · exact genTrace_progress_mono os
      { remaining := pipeline v a ct,
        job := initialGenJob user_id content_type script_length now0 }
      (progressChain_pipeline v a ct)
  · exact Nat.zero_le _

/-- C5 counterexample: the full pipeline (voice model, avatar model,
content type `video`) has 4 stages, yet the progress written after its
first stage is the hardcoded 20, while the spec's formula
`round(100 * (0+1) / 4)` gives 25. -/
theorem C5_counterexample :
    (pipeline (some "vm") (some "am") "video").length = 4 ∧
    (genTrace { remaining := pipeline (some "vm") (some "am") "video",
                job := initialGenJob "u" "video" 5 0 }
        [.ok 1 "voice.mp3" "reel.mp4"]).map (fun j => j.progress) = [20] ∧
    specProgressFormula 0 4 = 25 ∧ (20 : Nat) ≠ 25 := by
  decide

/-- C5 amended: after each executed stage the runner atomically sets
`progress` to that stage's hardcoded value — 20 after script processing,
60 after voice generation, 85 after video rendering, 100 at
finalization — together with that stage's human-readable `current_step`
description; the values do not follow `round(100*(i+1)/total_stages)`. -/
theorem C5_amended_hardcoded_progress (job : GenJob) (st : Stage) (now : Nat)
    (vf xf : String) :
    (applyStage job st now vf xf).progress = stageProgress st ∧
    (applyStage job st now vf xf).current_step = some (stageDescription st) ∧
    stageProgress .script = 20 ∧ stageProgress .voice = 60 ∧
    stageProgress .video = 85 ∧ stageProgress .finalize = 100 :=
  ⟨applyStage_progress job st now vf xf, applyStage_current_step job st now vf xf,
    rfl, rfl, rfl, rfl⟩

/-! ## Claims C1 and C2: cancellation versus the publishing runner -/

/-- Once the runner task has finished, every event other than a cancel
leaves the state untouched. -/
theorem pubStep_finished (s : PubState) (e : PubEvent)
    (hr : s.runner = .finished) (hc : e ≠ .cancel) : pubStep s e = s := by
  cases e with
  | cancel => exact absurd rfl hc
  | wake => simp [pubStep, hr]
  | platformDone r => simp [pubStep, hr]
  | commit now => simp [pubStep, hr]
  | crash msg => simp [pubStep, hr]

/-- A cancel-free event sequence after the runner finished changes
nothing. -/
theorem pubRun_finished_frame (evs : List PubEvent) :
    ∀ s : PubState, s.runner = .finished → PubEvent.cancel ∉ evs →
      pubRun s evs = s := by
  induction evs with
  | nil => intro s _ _; rfl
  | cons e es ih =>
      intro s hr hmem
      have he : e ≠ .cancel := by
        intro hcan
        exact hmem (hcan ▸ List.mem_cons_self e es)
      rw [pubRun, pubStep_finished s e hr he]
      exact ih s hr (fun h => hmem (List.mem_cons_of_mem e h))

/-- Demonstration post for the C1 counterexample: one scheduled post for
one platform, run to completion by its runner. -/
def c1Demo : PubState := freshScheduled "p1" "u1" "hello" ["instagram"] 10 0

/-- The completed state the C1 counterexample starts from. -/
def c1Completed : PubState :=
  pubRun c1Demo
    [.wake, .platformDone (publish_to_platform_success "instagram" "p1" 11 5 2 1),
     .commit 12]

/-- C1 counterexample: a scheduled post observed `completed` is flipped
to `cancelled` by a later `cancel_scheduled_post` call — the terminal
status is not absorbing under cancel. -/
theorem C1_counterexample :
    c1Completed.job.status = "completed" ∧
    (pubStep c1Completed .cancel).job.status = "cancelled" ∧
    ("cancelled" : String) ≠ "completed" := by
  decide

/-- C1 amended: terminal statuses are absorbing against status queries
and against further run/publish events once the runner task has
finished — under any cancel-free interleaving the job record (hence
every observed status and progress value) never changes; but
`cancel_scheduled_post` unconditionally overwrites any current status,
terminal ones included, with `cancelled`, and a runner that has not yet
committed later overwrites the status with `completed`. -/
theorem C1_amended_terminal_absorption :
    (∀ (s : PubState) (evs : List PubEvent),
      s.runner = .finished →
      (s.job.status = "completed" ∨ s.job.status = "failed" ∨
        s.job.status = "cancelled") →
      PubEvent.cancel ∉ evs →
      (pubRun s evs).job = s.job) ∧
    (∀ s : PubState, s.isScheduled = true →
      (pubStep s .cancel).job.status = "cancelled") ∧
    (∀ (s : PubState) (acc : List (String × PlatformResult)) (now : Nat),
      s.runner = .publishing [] acc →
      (pubStep s (.commit now)).job.status = "completed") := by
  refine ⟨?_, ?_, ?_⟩
  · intro s evs hr _ hnc
    rw [pubRun_finished_frame evs s hr hnc]
  · intro s hs
    simp [pubStep, hs, cancel_scheduled_post]
  · intro s acc now hr
    simp [pubStep, hr]

/-- Witness for C1's amended statement on a concrete completed state, a
concrete cancel-free event sequence, a concrete cancel, and a concrete
commit after a cancellation. -/
theorem C1_amended_terminal_absorption_witness :
    (pubRun c1Completed [.wake, .crash "late"]).job = c1Completed.job ∧
    (pubStep c1Completed .cancel).job.status = "cancelled" ∧
    (pubStep { job := scheduledPost "p9" "u9" "c" ["twitter"] 3 0,
               runner := .publishing [] [], isScheduled := true }
      (.commit 4)).job.status = "completed" :=
  ⟨C1_amended_terminal_absorption.1 c1Completed [.wake, .crash "late"] (by decide)
      (Or.inl (by decide)) (by decide),
   C1_amended_terminal_absorption.2.1 c1Completed (by decide),
   C1_amended_terminal_absorption.2.2
     { job := scheduledPost "p9" "u9" "c" ["twitter"] 3 0,
       runner := .publishing [] [], isScheduled := true } [] 4 rfl⟩

/-- Demonstration post for C2: a scheduled two-platform post. -/
def c2Demo : PubState := freshScheduled "p2" "u2" "body" ["instagram", "twitter"] 100 0

/-- The first platform's simulated publish result in the C2 run. -/
def c2Res1 : PlatformResult := publish_to_platform_success "instagram" "p2" 101 3 1 0

/-- The second platform's simulated publish result in the C2 run,
produced after the cancellation request. -/
def c2Res2 : PlatformResult := publish_to_platform_success "twitter" "p2" 103 7 2 1

/-- C2 (code bug): cancelling a scheduled post mid-run marks it
`cancelled` WITHOUT setting `completed_at`, and the runner ignores the
cancellation entirely — it publishes the remaining platform, overwrites
the status with `completed`, and populates `results` with data from the
stage executed after the cancellation point, contradicting the claimed
cancellation semantics at every step. -/
theorem C2_cancellation_ignored :
    ((pubRun c2Demo [.wake, .platformDone c2Res1, .cancel]).job.status =
        "cancelled" ∧
     (pubRun c2Demo [.wake, .platformDone c2Res1, .cancel]).job.completed_at =
        none) ∧
    ((pubRun c2Demo [.wake, .platformDone c2Res1, .cancel, .platformDone c2Res2,
          .commit 105]).job.status = "completed" ∧
     (pubRun c2Demo [.wake, .platformDone c2Res1, .cancel, .platformDone c2Res2,
          .commit 105]).job.results =
        some [("instagram", c2Res1), ("twitter", c2Res2)] ∧
     (pubRun c2Demo [.wake, .platformDone c2Res1, .cancel, .platformDone c2Res2,
          .commit 105]).job.completed_at = some (.iso 105)) := by
  decide

/-! ## Claim C6: outcome fields of terminal jobs -/

theorem cancelled_ne_completed : ("cancelled" : String) ≠ "completed" := by decide

theorem cancelled_ne_failed : ("cancelled" : String) ≠ "failed" := by decide

theorem scheduled_ne_completed : ("scheduled" : String) ≠ "completed" := by decide

theorem scheduled_ne_failed : ("scheduled" : String) ≠ "failed" := by decide

theorem publishing_ne_completed : ("publishing" : String) ≠ "completed" := by decide

theorem publishing_ne_failed : ("publishing" : String) ≠ "failed" := by decide

theorem completed_ne_failed : ("completed" : String) ≠ "failed" := by decide

theorem failed_ne_completed : ("failed" : String) ≠ "completed" := by decide

theorem processing_ne_completed : ("processing" : String) ≠ "completed" := by decide

theorem processing_ne_failed : ("processing" : String) ≠ "failed" := by decide

/-- The `results` payload of a publishing job is unpopulated: either the
key is absent (scheduled posts before completion) or it holds the empty
dict `publish_immediately` initialized. -/
def resultsEmpty (j : PubJob) : Prop :=
  j.results = none ∨ j.results = some []

/-- Outcome exclusivity for one publishing job record. -/
def pubOutcomeProp (j : PubJob) : Prop :=
  (j.status = "completed" → j.error = none ∧ j.results ≠ none) ∧
  (j.status = "failed" → resultsEmpty j ∧ j.error ≠ none)

/-- Inductive invariant of the publishing machine: outcome exclusivity,
strengthened with what holds while the runner task is still alive. -/
def pubOutcomeInv (s : PubState) : Prop :=
  pubOutcomeProp s.job ∧
  (s.runner ≠ .finished →
    s.job.status ≠ "completed" ∧ s.job.status ≠ "failed" ∧
    s.job.error = none ∧ resultsEmpty s.job)

/-- Every publishing event preserves the outcome invariant. -/
theorem pubOutcomeInv_step (s : PubState) (e : PubEvent)
    (h : pubOutcomeInv s) : pubOutcomeInv (pubStep s e) := by
  obtain ⟨⟨h1, h2⟩, h3⟩ := h
  cases e with
  | cancel =>
      by_cases hs : s.isScheduled = true
      · have heq : pubStep s .cancel = { s with job := cancel_scheduled_post s.job } := by
          simp [pubStep, hs]
        rw [heq]
        refine ⟨⟨fun hc => absurd hc cancelled_ne_completed,
          fun hf => absurd hf cancelled_ne_failed⟩, fun hrf => ?_⟩
        obtain ⟨_, _, he, hres⟩ := h3 hrf
        exact ⟨cancelled_ne_completed, cancelled_ne_failed, he, hres⟩
      · have heq : pubStep s .cancel = s := by simp [pubStep, hs]
        rw [heq]
        exact ⟨⟨h1, h2⟩, h3⟩
  | wake =>
      cases hr : s.runner with
      | waiting =>
          have heq : pubStep s .wake =
              { s with runner := .publishing s.job.platforms [] } := by
            simp [pubStep, hr]
          rw [heq]
          exact ⟨⟨h1, h2⟩, fun _ => h3 (by rw [hr]; exact fun hc => nomatch hc)⟩
      | publishing rem acc =>
          have heq : pubStep s .wake = s := by simp [pubStep, hr]
          rw [heq]; exact ⟨⟨h1, h2⟩, h3⟩
      | finished =>
          have heq : pubStep s .wake = s := by simp [pubStep, hr]
          rw [heq]; exact ⟨⟨h1, h2⟩, h3⟩
  | platformDone r =>
      cases hr : s.runner with
      | waiting =>
          have heq : pubStep s (.platformDone r) = s := by simp [pubStep, hr]
          rw [heq]; exact ⟨⟨h1, h2⟩, h3⟩
      | publishing rem acc =>
          cases rem with
          | nil =>
              have heq : pubStep s (.platformDone r) = s := by simp [pubStep, hr]
              rw [heq]; exact ⟨⟨h1, h2⟩, h3⟩
          | cons p rest =>
              have heq : pubStep s (.platformDone r) =
                  { s with runner := .publishing rest (acc ++ [(p, r)]) } := by
                simp [pubStep, hr]
              rw [heq]
              exact ⟨⟨h1, h2⟩, fun _ => h3 (by rw [hr]; exact fun hc => nomatch hc)⟩
      | finished =>
          have heq : pubStep s (.platformDone r) = s := by simp [pubStep, hr]
          rw [heq]; exact ⟨⟨h1, h2⟩, h3⟩
  | commit now =>
      cases hr : s.runner with
      | waiting =>
          have heq : pubStep s (.commit now) = s := by simp [pubStep, hr]
          rw [heq]; exact ⟨⟨h1, h2⟩, h3⟩
      | publishing rem acc =>
          cases rem with
          | nil =>
              have heq : pubStep s (.commit now) =
                  { s with
                    runner := .finished,
                    job := { s.job with
                             status := "completed", results := some acc,
                             completed_at := some (.iso now) } } := by
                simp [pubStep, hr]
              rw [heq]
              obtain ⟨_, _, he, _⟩ := h3 (by rw [hr]; exact fun hc => nomatch hc)
              refine ⟨⟨fun _ => ⟨he, fun hn => nomatch hn⟩,
                fun hf => absurd hf completed_ne_failed⟩, fun hrf => absurd rfl hrf⟩
          | cons p rest =>
              have heq : pubStep s (.commit now) = s := by simp [pubStep, hr]
              rw [heq]; exact ⟨⟨h1, h2⟩, h3⟩
      | finished =>
          have heq : pubStep s (.commit now) = s := by simp [pubStep, hr]
          rw [heq]; exact ⟨⟨h1, h2⟩, h3⟩
  | crash msg =>
      cases hr : s.runner with
      | waiting =>
          have heq : pubStep s (.crash msg) =
              { s with
                runner := .finished,
                job := { s.job with status := "failed", error := some msg } } := by
            simp [pubStep, hr]
          rw [heq]
          obtain ⟨_, _, _, hres⟩ := h3 (by rw [hr]; exact fun hc => nomatch hc)
          exact ⟨⟨fun hc => absurd hc failed_ne_completed,
            fun _ => ⟨hres, fun hn => nomatch hn⟩⟩, fun hrf => absurd rfl hrf⟩
      | publishing rem acc =>
          have heq : pubStep s (.crash msg) =
              { s with
                runner := .finished,
                job := { s.job with status := "failed", error := some msg } } := by
            simp [pubStep, hr]
          rw [heq]
          obtain ⟨_, _, _, hres⟩ := h3 (by rw [hr]; exact fun hc => nomatch hc)
          exact ⟨⟨fun hc => absurd hc failed_ne_completed,
            fun _ => ⟨hres, fun hn => nomatch hn⟩⟩, fun hrf => absurd rfl hrf⟩
      | finished =>
          have heq : pubStep s (.crash msg) = s := by simp [pubStep, hr]
          rw [heq]; exact ⟨⟨h1, h2⟩, h3⟩

/-- The outcome invariant is preserved by any event interleaving. -/
theorem pubOutcomeInv_run (evs : List PubEvent) :
    ∀ s : PubState, pubOutcomeInv s → pubOutcomeInv (pubRun s evs) := by
  induction evs with
  | nil => intro s h; exact h
  | cons e es ih => intro s h; exact ih _ (pubOutcomeInv_step s e h)

/-- A freshly scheduled post satisfies the outcome invariant. -/
theorem pubOutcomeInv_freshScheduled (post_id user_id content : String)
    (platforms : List String) (schedule_time now : Nat) :
    pubOutcomeInv (freshScheduled post_id user_id content platforms schedule_time now) :=
  ⟨⟨fun hc => absurd hc scheduled_ne_completed, fun hf => absurd hf scheduled_ne_failed⟩,
   fun _ => ⟨scheduled_ne_completed, scheduled_ne_failed, rfl, Or.inl rfl⟩⟩

/-- A fresh immediate publishing job satisfies the outcome invariant. -/
theorem pubOutcomeInv_freshImmediate (post_id user_id content : String)
    (platforms : List String) (now : Nat) :
    pubOutcomeInv (freshImmediate post_id user_id content platforms now) :=
  ⟨⟨fun hc => absurd hc publishing_ne_completed, fun hf => absurd hf publishing_ne_failed⟩,
   fun _ => ⟨publishing_ne_completed, publishing_ne_failed, rfl, Or.inr rfl⟩⟩

/-- Iterated content runner (the final state after a list of stage
outcomes). -/
def genRun (s : GenRunner) : List StageOutcome → GenRunner
  | [] => s
  | o :: os => genRun (genStep s o) os

theorem applyStage_error (job : GenJob) (st : Stage) (now : Nat) (vf xf : String) :
    (applyStage job st now vf xf).error = job.error := by
  cases st <;> rfl

/-- Inductive invariant of the content runner: a completed job carries
no error, a failed one does, and the error field can only be set once
the task is over. -/
def genOutcomeInv (s : GenRunner) : Prop :=
  (s.job.status = "completed" → s.job.error = none) ∧
  (s.job.error = none ∨ s.remaining = []) ∧
  (s.job.status = "failed" → s.job.error ≠ none)

/-- Every content-runner step preserves the outcome invariant. -/
theorem genOutcomeInv_step (s : GenRunner) (o : StageOutcome)
    (h : genOutcomeInv s) : genOutcomeInv (genStep s o) := by
  obtain ⟨h1, h2, h3⟩ := h
  cases hrem : s.remaining with
  | nil =>
      have heq : genStep s o = s := by cases o <;> simp [genStep, hrem]
      rw [heq]; exact ⟨h1, h2, h3⟩
  | cons st rest =>
      have herr : s.job.error = none := by
        cases h2 with
        | inl he => exact he
        | inr hre => rw [hrem] at hre; exact absurd hre (by simp)
      cases o with
      | ok now vf xf =>
          have heq : genStep s (.ok now vf xf) =
              { remaining := rest, job := applyStage s.job st now vf xf } := by
            simp [genStep, hrem]
          rw [heq]
          refine ⟨fun _ => by rw [applyStage_error]; exact herr,
            Or.inl (by rw [applyStage_error]; exact herr), fun hf => ?_⟩
          cases st with
          | finalize => exact absurd hf completed_ne_failed
          | script =>
              have hstat : s.job.status = "failed" := hf
              exact absurd herr (fun hne => (h3 hstat) hne)
          | voice =>
              have hstat : s.job.status = "failed" := hf
              exact absurd herr (fun hne => (h3 hstat) hne)
          | video =>
              have hstat : s.job.status = "failed" := hf
              exact absurd herr (fun hne => (h3 hstat) hne)
      | exn msg =>
          have heq : genStep s (.exn msg) =
              { remaining := [], job := failGenJob s.job msg } := by
            simp [genStep, hrem]
          rw [heq]
          exact ⟨fun hc => absurd hc failed_ne_completed, Or.inr rfl,
            fun _ => by simp [failGenJob]⟩

/-- The content-runner invariant is preserved by any outcome list. -/
theorem genOutcomeInv_run (os : List StageOutcome) :
    ∀ s : GenRunner, genOutcomeInv s → genOutcomeInv (genRun s os) := by
  induction os with
  | nil => intro s h; exact h
  | cons o os ih => intro s h; exact ih _ (genOutcomeInv_step s o h)

/-- C6 counterexample: the claim fails on the code in two reachable
states.  A content-generation job whose finalization stage raises after
the video stage completed is `failed` yet still carries the `video_file`
produced before the failure; and a scheduled post cancelled before its
runner wakes is terminal (`cancelled`) with neither a result nor an
error populated. -/
theorem C6_counterexample :
    (let s := genRun
        { remaining := pipeline (some "vm") (some "am") "video",
          job := initialGenJob "u" "video" 5 0 }
        [.ok 1 "voice.mp3" "reel.mp4", .ok 2 "voice.mp3" "reel.mp4",
         .ok 3 "voice.mp3" "reel.mp4", .exn "boom"]
     s.job.status = "failed" ∧ s.job.video_file = some "reel.mp4" ∧
       s.job.voice_file = some "voice.mp3") ∧
    (let t := pubRun (freshScheduled "p3" "u3" "c" ["instagram"] 9 0) [.cancel]
     t.job.status = "cancelled" ∧ t.job.results = none ∧ t.job.error = none) := by
  decide

/-- C6 amended: for every job whose status is `completed`, the error
field is absent, and for voice and publishing jobs the completed/failed
outcomes are mutually exclusive exactly as claimed — a completed voice
job carries the provider's `audio_url` (populated by all four simulated
providers) and no error, a failed voice job has no `audio_url` and a
populated error, a failed publishing job has an empty or absent
`results` payload and a populated error, and a failed content job has a
populated error; but a failed content-generation job may retain
`voice_file`/`video_file` artifacts written by stages that completed
before the failure, and a cancelled job may have neither outcome field
populated. -/
theorem C6_amended_outcome_exclusive :
    (∀ (text voice_id provider : String) (uid : Option String)
       (quality job_id : String) (now : Nat) (result : ProviderResult),
      ((settledVoiceJob (createdVoiceJob text voice_id provider uid quality job_id
          now) result now).status = "completed" →
        (settledVoiceJob (createdVoiceJob text voice_id provider uid quality job_id
          now) result now).error = none ∧
        (settledVoiceJob (createdVoiceJob text voice_id provider uid quality job_id
          now) result now).audio_url = result.audio_url) ∧
      ((settledVoiceJob (createdVoiceJob text voice_id provider uid quality job_id
          now) result now).status = "failed" →
        (settledVoiceJob (createdVoiceJob text voice_id provider uid quality job_id
          now) result now).audio_url = none ∧
        (settledVoiceJob (createdVoiceJob text voice_id provider uid quality job_id
          now) result now).error ≠ none)) ∧
    (∀ (text voice_id : String) (now : Nat),
      (generate_elevenlabs_voice text voice_id now).audio_url ≠ none ∧
      (generate_azure_voice text voice_id now).audio_url ≠ none ∧
      (generate_google_voice text voice_id now).audio_url ≠ none ∧
      (generate_speechelo_voice text voice_id now).audio_url ≠ none) ∧
    (∀ (post_id user_id content : String) (platforms : List String)
       (schedule_time now0 : Nat) (evs : List PubEvent),
      pubOutcomeProp
        (pubRun (freshScheduled post_id user_id content platforms schedule_time
          now0) evs).job) ∧
    (∀ (post_id user_id content : String) (platforms : List String)
       (now0 : Nat) (evs : List PubEvent),
      pubOutcomeProp
        (pubRun (freshImmediate post_id user_id content platforms now0) evs).job) ∧
    (∀ (v a : Option String) (ct user_id content_type : String)
       (script_length now0 : Nat) (os : List StageOutcome),
      ((genRun { remaining := pipeline v a ct,
                 job := initialGenJob user_id content_type script_length now0 }
          os).job.status = "completed" →
        (genRun { remaining := pipeline v a ct,
                  job := initialGenJob user_id content_type script_length now0 }
          os).job.error = none) ∧
      ((genRun { remaining := pipeline v a ct,
                 job := initialGenJob user_id content_type script_length now0 }
          os).job.status = "failed" →
        (genRun { remaining := pipeline v a ct,
                  job := initialGenJob user_id content_type script_length now0 }
          os).job.error ≠ none)) := by
  refine ⟨?_, ?_, ?_, ?_, ?_⟩
  · intro text voice_id provider uid quality job_id now result
    unfold settledVoiceJob
    split
    · exact ⟨fun _ => ⟨rfl, rfl⟩, fun hf => absurd hf completed_ne_failed⟩
    · exact ⟨fun hc => absurd hc failed_ne_completed,
        fun _ => ⟨rfl, fun hn => nomatch hn⟩⟩
  · intro text voice_id now
    exact ⟨(fun hn => nomatch hn), (fun hn => nomatch hn),
      (fun hn => nomatch hn), (fun hn => nomatch hn)⟩
  · intro post_id user_id content platforms schedule_time now0 evs
    exact (pubOutcomeInv_run evs _
      (pubOutcomeInv_freshScheduled post_id user_id content platforms
        schedule_time now0)).1
  · intro post_id user_id content platforms now0 evs
    exact (pubOutcomeInv_run evs _
      (pubOutcomeInv_freshImmediate post_id user_id content platforms now0)).1
  · intro v a ct user_id content_type script_length now0 os
    have h := genOutcomeInv_run os
      { remaining := pipeline v a ct,
        job := initialGenJob user_id content_type script_length now0 }
      ⟨fun hc => absurd hc processing_ne_completed, Or.inl rfl,
        fun hf => absurd hf processing_ne_failed⟩
    exact ⟨h.1, h.2.2⟩

/-- Witness for C6's amended statement: the voice exclusivity at a
concrete failed provider result, and the publishing exclusivity at a
concrete completed run. -/
theorem C6_amended_outcome_exclusive_witness :
    ((settledVoiceJob (createdVoiceJob "hi" "rachel" "elevenlabs" none "high" "w6"
        3) { status := "error", error := some "down" } 3).audio_url = none ∧
     (settledVoiceJob (createdVoiceJob "hi" "rachel" "elevenlabs" none "high" "w6"
        3) { status := "error", error := some "down" } 3).error ≠ none) ∧
    ((pubRun (freshScheduled "w6p" "u6" "c" ["instagram"] 5 0)
        [.wake, .platformDone (publish_to_platform_success "instagram" "w6p" 6 1 1 1),
         .commit 9]).job.error = none ∧
     (pubRun (freshScheduled "w6p" "u6" "c" ["instagram"] 5 0)
        [.wake, .platformDone (publish_to_platform_success "instagram" "w6p" 6 1 1 1),
         .commit 9]).job.results ≠ none) :=
  ⟨(C6_amended_outcome_exclusive.1 "hi" "rachel" "elevenlabs" none "high" "w6" 3
      { status := "error", error := some "down" }).2 (by decide),
   (C6_amended_outcome_exclusive.2.2.1 "w6p" "u6" "c" ["instagram"] 5 0
      [.wake, .platformDone (publish_to_platform_success "instagram" "w6p" 6 1 1 1),
       .commit 9]).1 (by decide)⟩

/-! ## Claim C3: querying an unknown job id -/

/-- C3 counterexample: querying the status of a job id that was never
created does not fail with a not-found error — `get_generation_status`
and `get_publishing_status` return `None`, and the HTTP status handlers
serialize that `None` as a response with success code 200 and a JSON
`null` body, which no error check would flag. -/
theorem C3_counterexample :
    generation_status_endpoint true [] "nonexistent" =
      { status_code := 200, body := .genStatus none } ∧
    publishing_status_endpoint true [] [] "nonexistent" =
      { status_code := 200, body := .pubStatus none } ∧
    isErrorResponse (generation_status_endpoint true [] "nonexistent") = false ∧
    isErrorResponse (publishing_status_endpoint true [] [] "nonexistent") = false := by
  decide

/-- C3 amended: an unknown job id never yields a stored job's record —
`get_voice_status` returns the error dictionary
`{"status": "error", "error": "Job not found"}`, while
`get_generation_status` and `get_publishing_status` signal the miss by
returning `None` rather than raising; the HTTP status endpoints then
serve that `None` as an HTTP 200 response with a JSON `null` body
instead of a not-found error. -/
theorem C3_amended_unknown_id (st : VoiceStore)
    (gjobs : List (String × GenJob)) (pjobs sposts : List (String × PubJob))
    (vid gid pid : String)
    (hv : st.voice_jobs.lookup vid = none)
    (hg : gjobs.lookup gid = none)
    (hp : pjobs.lookup pid = none) (hs : sposts.lookup pid = none) :
    (get_voice_status st vid).2 =
      [("status", .str "error"), ("error", .str "Job not found")] ∧
    (get_generation_status gjobs gid).2 = none ∧
    (get_publishing_status pjobs sposts pid).2 = none ∧
    generation_status_endpoint true gjobs gid =
      { status_code := 200, body := .genStatus none } ∧
    publishing_status_endpoint true pjobs sposts pid =
      { status_code := 200, body := .pubStatus none } := by
  have h2 : (get_generation_status gjobs gid).2 = none := by
    simp [get_generation_status, hg]
  have h3 : (get_publishing_status pjobs sposts pid).2 = none := by
    simp [get_publishing_status, hp, hs, Option.orElse]
  refine ⟨?_, h2, h3, ?_, ?_⟩
  · unfold get_voice_status
    rw [hv]
  · simp [generation_status_endpoint, h2]
  · simp [publishing_status_endpoint, h3]

/-- Witness for C3's amended statement on empty stores and the id
`"nonexistent"`. -/
theorem C3_amended_unknown_id_witness :
    (get_voice_status {} "nonexistent").2 =
      [("status", .str "error"), ("error", .str "Job not found")] ∧
    (get_generation_status [] "nonexistent").2 = none ∧
    (get_publishing_status [] [] "nonexistent").2 = none ∧
    generation_status_endpoint true [] "nonexistent" =
      { status_code := 200, body := .genStatus none } ∧
    publishing_status_endpoint true [] [] "nonexistent" =
      { status_code := 200, body := .pubStatus none } :=
  C3_amended_unknown_id {} [] [] [] "nonexistent" "nonexistent" "nonexistent"
    rfl rfl rfl rfl

/-- Witness for C5's amended statement at the concrete first stage of a
full pipeline. -/
theorem C5_amended_hardcoded_progress_witness :
    (applyStage (initialGenJob "u" "video" 3 0) .script 1 "v.mp3" "r.mp4").progress =
      stageProgress .script ∧
    (applyStage (initialGenJob "u" "video" 3 0) .script 1 "v.mp3" "r.mp4").current_step =
      some (stageDescription .script) :=
  ⟨(C5_amended_hardcoded_progress (initialGenJob "u" "video" 3 0) .script 1
      "v.mp3" "r.mp4").1,
   (C5_amended_hardcoded_progress (initialGenJob "u" "video" 3 0) .script 1
      "v.mp3" "r.mp4").2.1⟩

/-- Witness for C7 on a concrete two-step run of the full pipeline. -/
theorem C7_progress_monotone_witness :
    progressesFrom (initialGenJob "u" "video" 3 0).progress
      (genTrace { remaining := pipeline (some "vm") (some "am") "video",
                  job := initialGenJob "u" "video" 3 0 }
        [.ok 1 "v.mp3" "r.mp4", .ok 2 "v.mp3" "r.mp4"]) = true :=
  (C7_progress_monotone (some "vm") (some "am") "video" "u" "video" 3 0
    [.ok 1 "v.mp3" "r.mp4", .ok 2 "v.mp3" "r.mp4"] "t" "v" "elevenlabs" none
    "high" "j" 0 { status := "success" }).1

/-- Witness for C8 on a concrete empty store. -/
theorem C8_status_queries_read_only_witness :
    (get_voice_status {} "x").1 = ({} : VoiceStore) :=
  (C8_status_queries_read_only {} [] [] [] "x" "x" "x").1

end ContentX
